import Mathlib

/-!
Shallow embedding of `custom_components/grandstream_gwn/gwn_manager_api.py`
(class `GWNClient`): signature construction, token lifecycle, signed request
execution and snapshot building, together with theorems settling the spec
claims about them.

Modelling conventions:
* JSON / Python values are modelled by `JVal`; Python `None` is `JVal.null`
  (as produced by `json.loads` for JSON `null` and used for a bare `return`).
* `hashlib.sha256(s.encode()).hexdigest()` is modelled by an abstract
  function `sha256hex : String → String`, and
  `json.dumps(body, separators=(',', ':'))` by an abstract
  `jsonDumps : JVal → String`; the claims only concern how these library
  calls are composed, never the digest bits themselves.
* `time.time()` readings are modelled as a stream of natural numbers in
  milliseconds (the Python float seconds, scaled by 1000 exactly); the
  comparison `time.time() >= self.token_expiry` and the timestamp
  `int(time.time() * 1000)` are both exact under this scaling.
* Exceptions are modelled with `Except`; the constructors of `Exc` name the
  Python exception that is raised.
-/

set_option autoImplicit false

namespace GWN

/-- JSON / Python values (`null` doubles as Python `None`). -/
inductive JVal where
  | null
  | b (x : Bool)
  | n (x : Int)
  | s (x : String)
  | arr (xs : List JVal)
  | obj (fields : List (String × JVal))

mutual

/-- Structural (Python `==`) equality test on `JVal`. -/
def jvBeq : JVal → JVal → Bool
  | .null, .null => true
  | .b x, .b y => x == y
  | .n x, .n y => x == y
  | .s x, .s y => x == y
  | .arr xs, .arr ys => jvBeqList xs ys
  | .obj xs, .obj ys => jvBeqFields xs ys
  | _, _ => false

/-- Elementwise `jvBeq` on lists. -/
def jvBeqList : List JVal → List JVal → Bool
  | [], [] => true
  | x :: xs, y :: ys => jvBeq x y && jvBeqList xs ys
  | _, _ => false

/-- Elementwise `jvBeq` on object fields. -/
def jvBeqFields : List (String × JVal) → List (String × JVal) → Bool
  | [], [] => true
  | (k, v) :: xs, (l, w) :: ys => k == l && jvBeq v w && jvBeqFields xs ys
  | _, _ => false

end

mutual

theorem jvBeq_iff : ∀ a b : JVal, jvBeq a b = true ↔ a = b
  | .null, .null => by simp [jvBeq]
  | .b x, .b y => by simp [jvBeq]
  | .n x, .n y => by simp [jvBeq]
  | .s x, .s y => by simp [jvBeq]
  | .arr xs, .arr ys => by
      simp only [jvBeq, jvBeqList_iff xs ys, JVal.arr.injEq]
  | .obj xs, .obj ys => by
      simp only [jvBeq, jvBeqFields_iff xs ys, JVal.obj.injEq]
  | .null, .b _ | .null, .n _ | .null, .s _ | .null, .arr _ | .null, .obj _
  | .b _, .null | .b _, .n _ | .b _, .s _ | .b _, .arr _ | .b _, .obj _
  | .n _, .null | .n _, .b _ | .n _, .s _ | .n _, .arr _ | .n _, .obj _
  | .s _, .null | .s _, .b _ | .s _, .n _ | .s _, .arr _ | .s _, .obj _
  | .arr _, .null | .arr _, .b _ | .arr _, .n _ | .arr _, .s _ | .arr _, .obj _
  | .obj _, .null | .obj _, .b _ | .obj _, .n _ | .obj _, .s _ | .obj _, .arr _ => by
      simp [jvBeq]

theorem jvBeqList_iff : ∀ xs ys : List JVal, jvBeqList xs ys = true ↔ xs = ys
  | [], [] => by simp [jvBeqList]
  | x :: xs, y :: ys => by
      simp [jvBeqList, jvBeq_iff x y, jvBeqList_iff xs ys]
  | [], _ :: _ => by simp [jvBeqList]
  | _ :: _, [] => by simp [jvBeqList]

theorem jvBeqFields_iff :
    ∀ xs ys : List (String × JVal), jvBeqFields xs ys = true ↔ xs = ys
  | [], [] => by simp [jvBeqFields]
  | (k, v) :: xs, (l, w) :: ys => by
      simp [jvBeqFields, jvBeq_iff v w, jvBeqFields_iff xs ys]
  | [], _ :: _ => by simp [jvBeqFields]
  | _ :: _, [] => by simp [jvBeqFields]

end

/-- Python truthiness of a value (`if body:`, `if networks:`, …). -/
def jvTruthy : JVal → Bool
  | .null => false
  | .b x => x
  | .n x => x != 0
  | .s x => x ≠ ""
  | .arr xs => !xs.isEmpty
  | .obj fs => !fs.isEmpty

/-- First-match association lookup (Python `dict` read on unique keys). -/
def lookupF : List (String × JVal) → String → Option JVal
  | [], _ => none
  | (k, v) :: rest, key => if k == key then some v else lookupF rest key

/-- Lexicographic `<` on code-point sequences (Python string comparison). -/
def strLtChars : List Char → List Char → Bool
  | [], [] => false
  | [], _ :: _ => true
  | _ :: _, [] => false
  | a :: as, b :: bs =>
    if a.toNat < b.toNat then true
    else if b.toNat < a.toNat then false
    else strLtChars as bs

/-- `s <= t` in Python's lexicographic string order. -/
def pyStrLe (s t : String) : Bool := ! strLtChars t.data s.data

/-- One step of the stable insertion giving Python's `sorted` order by key. -/
def insertByKey (p : String × String) :
    List (String × String) → List (String × String)
  | [] => [p]
  | q :: rest => if pyStrLe p.1 q.1 then p :: q :: rest else q :: insertByKey p rest

/-- `sorted(params.keys())` followed by reading the dict in that key order:
a stable sort of the key/value pairs by key. -/
def sortByKey : List (String × String) → List (String × String)
  | [] => []
  | p :: rest => insertByKey p (sortByKey rest)

/-- `str(x)` applied to the token slot: Python renders `None` as `"None"`. -/
def pyStrOpt : Option String → String
  | none => "None"
  | some s => s

/-- Python truthiness of an optional body value (`if body:` where `body`
is either `None` or a parsed JSON value). -/
def bodyTruthy : Option JVal → Bool
  | none => false
  | some b => jvTruthy b

/-- `GWNClient.calculate_signature` (gwn_manager_api.py lines 61-89).
`sha256hex` models `hashlib.sha256(·.encode()).hexdigest()` and `jsonDumps`
models `json.dumps(·, separators=(',', ':'))`. -/
def calculate_signature (sha256hex : String → String) (jsonDumps : JVal → String)
    (app_id secret_key : String) (access_token : Option String)
    (timestamp : Nat) (body : Option JVal) : String :=
  let params : List (String × String) :=
    [("access_token", pyStrOpt access_token), ("appID", app_id),
     ("secretKey", secret_key), ("timestamp", toString timestamp)]
  let sorted := sortByKey params
  let param_str :=
    "&" ++ String.intercalate "&" (sorted.map fun p => p.1 ++ "=" ++ p.2)
  let param_str :=
    if bodyTruthy body then
      param_str ++ "&" ++ sha256hex (jsonDumps (body.getD .null)) ++ "&"
    else
      param_str ++ "&"
  sha256hex param_str

/-- The four signature parameters are already in Python's sorted key order. -/
theorem sortByKey_sig_params (v₁ v₂ v₃ v₄ : String) :
    sortByKey [("access_token", v₁), ("appID", v₂), ("secretKey", v₃),
      ("timestamp", v₄)] =
    [("access_token", v₁), ("appID", v₂), ("secretKey", v₃), ("timestamp", v₄)] := by
  have h₁ : pyStrLe "access_token" "appID" = true := by decide
  have h₂ : pyStrLe "appID" "secretKey" = true := by decide
  have h₃ : pyStrLe "secretKey" "timestamp" = true := by decide
  simp [sortByKey, insertByKey, h₁, h₂, h₃]

/-- C1: for every token, app id, secret and millisecond timestamp, the
signature is the SHA-256 hex digest of the string rendering the four
parameters `access_token`, `appID`, `secretKey`, `timestamp` in
lexicographic key order as `&key=value` pairs with a leading `&`; with a
request body present the SHA-256 hex digest of its compact JSON
serialization is appended between two `&` delimiters, and without a body a
single trailing `&` is appended. -/
theorem c1_signature_construction
    (sha256hex : String → String) (jsonDumps : JVal → String)
    (app_id secret_key : String) (access_token : Option String)
    (timestamp : Nat) (body : JVal) (hbody : jvTruthy body = true) :
    calculate_signature sha256hex jsonDumps app_id secret_key access_token
        timestamp (some body) =
      sha256hex ("&access_token=" ++ pyStrOpt access_token ++ "&appID=" ++
        app_id ++ "&secretKey=" ++ secret_key ++ "&timestamp=" ++
        toString timestamp ++ "&" ++ sha256hex (jsonDumps body) ++ "&") ∧
    calculate_signature sha256hex jsonDumps app_id secret_key access_token
        timestamp none =
      sha256hex ("&access_token=" ++ pyStrOpt access_token ++ "&appID=" ++
        app_id ++ "&secretKey=" ++ secret_key ++ "&timestamp=" ++
        toString timestamp ++ "&") := by
  constructor <;>
  · simp only [calculate_signature, sortByKey_sig_params, bodyTruthy, hbody,
      List.map_cons, List.map_nil, String.intercalate, String.intercalate.go,
      Option.getD_some, if_true, Bool.false_eq_true, if_false]
    congr 1
    apply String.ext
    simp [String.data_append]

/-- Witness for C1 at concrete inputs. -/
theorem c1_signature_construction_witness :
    jvTruthy (JVal.obj [("k", JVal.s "v")]) = true ∧
    (calculate_signature (fun s => "#" ++ s) (fun _ => "J") "app" "sec"
        (some "tok") 5 (some (JVal.obj [("k", JVal.s "v")])) =
      (fun s => "#" ++ s) ("&access_token=" ++ pyStrOpt (some "tok") ++
        "&appID=" ++ "app" ++ "&secretKey=" ++ "sec" ++ "&timestamp=" ++
        toString 5 ++ "&" ++
        (fun s => "#" ++ s) ((fun _ => "J") (JVal.obj [("k", JVal.s "v")])) ++
        "&") ∧
    calculate_signature (fun s => "#" ++ s) (fun _ => "J") "app" "sec"
        (some "tok") 5 none =
      (fun s => "#" ++ s) ("&access_token=" ++ pyStrOpt (some "tok") ++
        "&appID=" ++ "app" ++ "&secretKey=" ++ "sec" ++ "&timestamp=" ++
        toString 5 ++ "&")) :=
  ⟨by decide, c1_signature_construction (fun s => "#" ++ s) (fun _ => "J")
    "app" "sec" (some "tok") 5 (JVal.obj [("k", JVal.s "v")]) (by decide)⟩

/-! ## Token lifecycle and signed request executor -/

/-- Mutable client state: `self.access_token` and `self.token_expiry`.
The expiry is kept in milliseconds since epoch (Python stores seconds as a
float; every comparison and the stored value scale by 1000 exactly). -/
structure ClientState where
  access_token : Option String
  token_expiry : Nat
  deriving DecidableEq

/-- Outcome of one `httpx.post(auth_url, …)` credential exchange: parsed
response fields on 2xx (`access_token` / `expires_in` may be absent), or an
`HTTPStatusError` / `RequestError`. -/
inductive AuthOutcome where
  | success (access_token : Option String) (expires_in : Option Nat)
  | httpError (status : Nat) (body : String)
  | transportError (msg : String)

/-- Outcome of one signed `httpx.post`/`httpx.get`: parsed JSON body on 2xx,
or an `HTTPStatusError` / `RequestError`. -/
inductive HttpOutcome where
  | ok (body : JVal)
  | httpError (status : Nat) (body : String)
  | transportError (msg : String)

/-- The client's immutable configuration together with the external world:
successive `time.time()` readings (ms), successive authentication-call
outcomes, and successive signed-request outcomes. -/
structure Env where
  app_id : String
  secret_key : String
  sha256hex : String → String
  jsonDumps : JVal → String
  clock : Nat → Nat
  authCall : Nat → AuthOutcome
  httpCall : Nat → HttpOutcome

/-- Counters of consumed clock readings, authentication calls and signed
HTTP requests. -/
structure Ctr where
  clk : Nat
  auth : Nat
  http : Nat
  deriving DecidableEq

/-- Python exception kinds raised by the modelled code. -/
inductive Exc where
  | couldNotAuth
  | keyError
  | typeError
  | indexError
  | attributeError
  deriving DecidableEq

/-- Python truthiness of `self.access_token` (`None` and `""` are falsy). -/
def tokenTruthy : Option String → Bool
  | none => false
  | some s => s ≠ ""

/-- Result of `GWNClient.authenticate`. -/
structure AuthRet where
  ok : Bool
  st : ClientState
  ctr : Ctr

/-- `GWNClient.authenticate` (lines 18-49): POST credentials to
`/oauth/token`; on 2xx store `data.get("access_token")` and
`time.time() + data.get("expires_in", 3600)` and return `True`; on
`HTTPStatusError`/`RequestError` print and return `False`. -/
def authenticate (env : Env) (st : ClientState) (ctr : Ctr) : AuthRet :=
  match env.authCall ctr.auth with
  | .success tok e =>
      ⟨true,
       { access_token := tok,
         token_expiry := env.clock ctr.clk + 1000 * e.getD 3600 },
       { ctr with auth := ctr.auth + 1, clk := ctr.clk + 1 }⟩
  | .httpError _ _ => ⟨false, st, { ctr with auth := ctr.auth + 1 }⟩
  | .transportError _ => ⟨false, st, { ctr with auth := ctr.auth + 1 }⟩

/-- `not self.access_token or time.time() >= self.token_expiry` with
Python's short-circuit (the clock is only read when the token is truthy). -/
def staleCheck (env : Env) (st : ClientState) (ctr : Ctr) : Bool × Ctr :=
  if tokenTruthy st.access_token then
    (decide (env.clock ctr.clk ≥ st.token_expiry), { ctr with clk := ctr.clk + 1 })
  else (true, ctr)

/-- Result of the ensure-token step / `get_headers`. -/
structure GHRet where
  result : Except Exc Unit
  st : ClientState
  ctr : Ctr

/-- The ensure-token step shared by `make_request` lines 96-98 and
`get_headers` lines 52-54: if the token is absent/expired, authenticate,
and `raise Exception("Could not authenticate")` when that fails. -/
def ensureToken (env : Env) (st : ClientState) (ctr : Ctr) : GHRet :=
  let (stale, c₁) := staleCheck env st ctr
  if stale then
    let r := authenticate env st c₁
    if r.ok then ⟨.ok (), r.st, r.ctr⟩ else ⟨.error .couldNotAuth, r.st, r.ctr⟩
  else ⟨.ok (), st, c₁⟩

/-- `GWNClient.get_headers` (lines 51-59): ensure the token, then return the
constant `{"Content-Type": "application/json"}` header dict (the headers
themselves play no role in any claim). -/
def get_headers (env : Env) (st : ClientState) (ctr : Ctr) : GHRet :=
  ensureToken env st ctr

/-- Query-parameter values (Python dict values of mixed type: strings, the
integer timestamp, and the possibly-`None` token). -/
inductive QVal where
  | s (x : String)
  | n (x : Nat)
  | optS (x : Option String)
  deriving DecidableEq

/-- First-match association lookup on query parameters. -/
def lookupQ : List (String × QVal) → String → Option QVal
  | [], _ => none
  | (k, v) :: rest, key => if k == key then some v else lookupQ rest key

/-- `d[k] = v` on a Python dict: replace the value of an existing key in
place, otherwise append the new pair. -/
def dictSet (d : List (String × QVal)) (p : String × QVal) :
    List (String × QVal) :=
  match d with
  | [] => [p]
  | q :: rest => if q.1 == p.1 then (q.1, p.2) :: rest else q :: dictSet rest p

/-- `d.update(e)` on Python dicts. -/
def dictUpdate (d e : List (String × QVal)) : List (String × QVal) :=
  e.foldl dictSet d

/-- Result of `GWNClient.make_request`: the returned value (`.ok .null`
models `return None`), the state and counters afterwards, and the query
parameters of the signed request when one was issued. -/
structure MROut where
  result : Except Exc JVal
  st : ClientState
  ctr : Ctr
  query : Option (List (String × QVal))
  sentPost : Option Bool

/-- `GWNClient.make_request` (lines 91-135). Reads `time.time()` for the
millisecond timestamp, ensures the token (raising when authentication
fails), computes the signature over the same timestamp and body, builds the
four signed query parameters, merges caller params with `dict.update`,
calls `get_headers` (which re-checks staleness), then issues the request;
`HTTPStatusError` and `RequestError` are caught and turn into `return None`
(the dead local `body_str` of lines 101-104 is omitted: it is never read). -/
def make_request (env : Env) (method : String) (endpoint : String)
    (json_data : Option JVal) (params : Option (List (String × QVal)))
    (st : ClientState) (ctr : Ctr) : MROut :=
  let _url := endpoint
  let timestamp := env.clock ctr.clk
  let c₁ : Ctr := { ctr with clk := ctr.clk + 1 }
  match ensureToken env st c₁ with
  | ⟨.error e, st₁, c₂⟩ => ⟨.error e, st₁, c₂, none, none⟩
  | ⟨.ok _, st₁, c₂⟩ =>
    let signature := calculate_signature env.sha256hex env.jsonDumps
      env.app_id env.secret_key st₁.access_token timestamp json_data
    let query_params : List (String × QVal) :=
      [("access_token", .optS st₁.access_token), ("appID", .s env.app_id),
       ("timestamp", .n timestamp), ("signature", .s signature)]
    let query_params :=
      match params with
      | some p => if p.isEmpty then query_params else dictUpdate query_params p
      | none => query_params
    match get_headers env st₁ c₂ with
    | ⟨.error e, st₂, c₃⟩ => ⟨.error e, st₂, c₃, none, none⟩
    | ⟨.ok _, st₂, c₃⟩ =>
      let isPost := method.toUpper == "POST"
      let c₄ : Ctr := { c₃ with http := c₃.http + 1 }
      match env.httpCall c₃.http with
      | .ok j => ⟨.ok j, st₂, c₄, some query_params, some isPost⟩
      | .httpError _ _ => ⟨.ok .null, st₂, c₄, some query_params, some isPost⟩
      | .transportError _ => ⟨.ok .null, st₂, c₄, some query_params, some isPost⟩

/-- C9: every `authenticate` call either succeeds and updates
`access_token` and `token_expiry` together — the expiry being the clock
reading plus the server-supplied `expires_in`, defaulting to 3600 seconds
when the field is absent — or fails and leaves both fields exactly as they
were; the pair is never partially updated. -/
theorem c9_authenticate_atomic (env : Env) (st : ClientState) (ctr : Ctr) :
    (∃ tok e, env.authCall ctr.auth = .success tok e ∧
      (authenticate env st ctr).ok = true ∧
      (authenticate env st ctr).st =
        { access_token := tok,
          token_expiry := env.clock ctr.clk + 1000 * e.getD 3600 }) ∨
    ((authenticate env st ctr).ok = false ∧
      (authenticate env st ctr).st = st) := by
  cases h : env.authCall ctr.auth <;> simp [authenticate, h]
  exact ⟨_, _, ⟨rfl, rfl⟩, rfl, rfl⟩

/-- C2: for a signed call issued via `make_request` (under a clock that does
not advance during the call and a well-formed authentication response):
zero authentication calls are made when the stored token is truthy and
unexpired at call time, and exactly one authentication call is made when
the token is absent or expired; in both cases exactly one HTTP request is
then issued. -/
theorem c2_make_request_auth_calls (env : Env) (st : ClientState)
    (method endpoint : String) (json_data : Option JVal)
    (params : Option (List (String × QVal))) (c : Nat) (tok : String)
    (e : Option Nat)
    (hclock : ∀ i, env.clock i = c)
    (hauth : env.authCall 0 = .success (some tok) e)
    (htok : tok ≠ "")
    (hexp : 0 < e.getD 3600) :
    (make_request env method endpoint json_data params st ⟨0, 0, 0⟩).ctr.auth =
      (if tokenTruthy st.access_token = true ∧ c < st.token_expiry
        then 0 else 1) ∧
    (make_request env method endpoint json_data params st ⟨0, 0, 0⟩).ctr.http
      = 1 := by
  have hfresh : ¬ c + 1000 * e.getD 3600 ≤ c := by omega
  have htok' : tokenTruthy (some tok) = true := by simp [tokenTruthy, htok]
  by_cases h₁ : tokenTruthy st.access_token = true
  · by_cases h₂ : c < st.token_expiry
    · have hnot : ¬ st.token_expiry ≤ c := Nat.not_le.mpr h₂
      rw [if_pos ⟨h₁, h₂⟩]
      simp only [make_request, ensureToken, get_headers, staleCheck, hclock,
        h₁, if_true, ge_iff_le, decide_eq_true_eq, hnot, iff_false,
        decide_eq_false, if_false, Bool.false_eq_true]
      cases env.httpCall 0 <;> simp
    · have hle : st.token_expiry ≤ c := Nat.not_lt.mp h₂
      rw [if_neg (fun h => h₂ h.2)]
      simp only [make_request, ensureToken, get_headers, staleCheck,
        authenticate, hclock, hauth, h₁, htok', if_true, ge_iff_le,
        decide_eq_true_eq, hle, decide_eq_true, hfresh, iff_false,
        decide_eq_false, if_false, Bool.false_eq_true]
      cases env.httpCall 0 <;> simp
  · have h₁' : tokenTruthy st.access_token = false := by
      revert h₁; cases tokenTruthy st.access_token <;> simp
    rw [if_neg (fun h => h₁ h.1)]
    simp only [make_request, ensureToken, get_headers, staleCheck,
      authenticate, hclock, hauth, h₁', htok', if_true, Bool.false_eq_true,
      if_false, ge_iff_le, decide_eq_true_eq, hfresh, iff_false,
      decide_eq_false]
    cases env.httpCall 0 <;> simp

/-- A concrete environment: frozen clock at 100 ms, an authentication server
returning token `"tok"` with a 60 s lifetime, and a signed endpoint
returning JSON `null`. -/
def envStale : Env :=
  { app_id := "app", secret_key := "sec", sha256hex := fun s => s,
    jsonDumps := fun _ => "B", clock := fun _ => 100,
    authCall := fun _ => .success (some "tok") (some 60),
    httpCall := fun _ => .ok .null }

/-- Witness for C2: starting with no stored token, the call makes exactly
one authentication call and one HTTP request. -/
theorem c2_make_request_auth_calls_witness :
    "tok" ≠ "" ∧ 0 < (some 60 : Option Nat).getD 3600 ∧
    ((make_request envStale "POST" "/x" none none ⟨none, 0⟩
        ⟨0, 0, 0⟩).ctr.auth =
      (if tokenTruthy (ClientState.mk none 0).access_token = true ∧
          100 < (ClientState.mk none 0).token_expiry then 0 else 1) ∧
      (make_request envStale "POST" "/x" none none ⟨none, 0⟩
        ⟨0, 0, 0⟩).ctr.http = 1) :=
  ⟨by decide, by decide,
    c2_make_request_auth_calls envStale ⟨none, 0⟩ "POST" "/x" none none 100
      "tok" (some 60) (fun _ => rfl) rfl (by decide) (by decide)⟩

/-- Setting a key not equal to `k` does not change a dict's entry at `k`. -/
theorem lookupQ_dictSet_ne (d : List (String × QVal)) (p : String × QVal)
    (k : String) (h : p.1 ≠ k) : lookupQ (dictSet d p) k = lookupQ d k := by
  induction d with
  | nil => simp [dictSet, lookupQ, h]
  | cons q rest ih =>
      by_cases hq : (q.1 == p.1) = true
      · have heq : q.1 = p.1 := by simpa using hq
        have hk : (q.1 == k) = false := by simp [heq, h]
        simp [dictSet, hq, lookupQ, hk]
      · simp [dictSet, hq, lookupQ, ih]

/-- Updating with entries whose keys all differ from `k` does not change the
entry at `k`. -/
theorem lookupQ_dictUpdate_ne (d e : List (String × QVal)) (k : String)
    (h : ∀ kv ∈ e, kv.1 ≠ k) : lookupQ (dictUpdate d e) k = lookupQ d k := by
  induction e generalizing d with
  | nil => rfl
  | cons p rest ih =>
      have hset := lookupQ_dictSet_ne d p k (h p (by simp))
      show lookupQ (dictUpdate (dictSet d p) rest) k = lookupQ d k
      rw [ih (dictSet d p) (fun kv hkv => h kv (by simp [hkv])), hset]

/-- The four signed query fields as `make_request` computes them. -/
def signedQuery (env : Env) (tok : Option String) (ts : Nat)
    (json_data : Option JVal) : List (String × QVal) :=
  [("access_token", .optS tok), ("appID", .s env.app_id),
   ("timestamp", .n ts),
   ("signature", .s (calculate_signature env.sha256hex env.jsonDumps
      env.app_id env.secret_key tok ts json_data))]

/-- Full evaluation of `make_request` when the stored token is truthy and
unexpired under a frozen clock: no authentication call, one HTTP request,
and the recorded query is the four signed fields merged (via `dict.update`)
with the caller's params. -/
theorem make_request_fresh (env : Env) (st : ClientState)
    (method endpoint : String) (json_data : Option JVal)
    (params : Option (List (String × QVal))) (c : Nat) (ctr : Ctr)
    (hclock : ∀ i, env.clock i = c)
    (h₁ : tokenTruthy st.access_token = true)
    (h₂ : c < st.token_expiry) :
    make_request env method endpoint json_data params st ctr =
      ⟨(match env.httpCall ctr.http with
        | .ok j => .ok j
        | .httpError _ _ => .ok .null
        | .transportError _ => .ok .null),
       st, ⟨ctr.clk + 3, ctr.auth, ctr.http + 1⟩,
       some (match params with
        | some p =>
            if p.isEmpty then signedQuery env st.access_token c json_data
            else dictUpdate (signedQuery env st.access_token c json_data) p
        | none => signedQuery env st.access_token c json_data),
       some (method.toUpper == "POST")⟩ := by
  have hnot : ¬ st.token_expiry ≤ c := Nat.not_le.mpr h₂
  simp only [make_request, ensureToken, get_headers, staleCheck, signedQuery,
    hclock, h₁, if_true, ge_iff_le, decide_eq_true_eq, hnot, iff_false,
    decide_eq_false, if_false, Bool.false_eq_true]
  cases env.httpCall ctr.http <;> simp

/-- C4 (amended): when the single HTTP attempt of a signed call comes back
non-2xx or fails at the transport level, `make_request` swallows the
exception and returns `None` — exactly one attempt, no retry, and no typed
error is raised (stated under a fresh token and a frozen clock). -/
theorem c4_error_swallowed (env : Env) (st : ClientState)
    (method endpoint : String) (json_data : Option JVal)
    (params : Option (List (String × QVal))) (c : Nat)
    (hclock : ∀ i, env.clock i = c)
    (h₁ : tokenTruthy st.access_token = true)
    (h₂ : c < st.token_expiry)
    (herr : ∀ j, env.httpCall 0 ≠ .ok j) :
    (make_request env method endpoint json_data params st ⟨0, 0, 0⟩).result =
      .ok .null ∧
    (make_request env method endpoint json_data params st ⟨0, 0, 0⟩).ctr.http
      = 1 := by
  rw [make_request_fresh env st method endpoint json_data params c ⟨0, 0, 0⟩
    hclock h₁ h₂]
  cases henv : env.httpCall 0 with
  | ok j => exact absurd henv (herr j)
  | httpError s b => exact ⟨rfl, rfl⟩
  | transportError m => exact ⟨rfl, rfl⟩

/-- A concrete environment whose signed endpoint answers HTTP 401. -/
def env401 : Env :=
  { app_id := "app", secret_key := "sec", sha256hex := fun s => s,
    jsonDumps := fun _ => "B", clock := fun _ => 100,
    authCall := fun _ => .success (some "tok") (some 60),
    httpCall := fun _ => .httpError 401 "Unauthorized" }

/-- Counterexample for C4 as stated: on an HTTP 401 the signed call does not
fail with any error at all — it returns normally with `None`. -/
theorem c4_counterexample_401_returns_none :
    (make_request env401 "GET" "/oapi/v1.0.0/ap/list" none none
      ⟨some "tok", 1000⟩ ⟨0, 0, 0⟩).result = .ok .null ∧
    (make_request env401 "GET" "/oapi/v1.0.0/ap/list" none none
      ⟨some "tok", 1000⟩ ⟨0, 0, 0⟩).ctr.http = 1 := by
  constructor <;> rfl

/-- Witness for C4 (amended) at the concrete 401 environment. -/
theorem c4_error_swallowed_witness :
    tokenTruthy (some "tok") = true ∧ (100 : Nat) < 1000 ∧
    ((make_request env401 "POST" "/x" none none ⟨some "tok", 1000⟩
        ⟨0, 0, 0⟩).result = .ok .null ∧
      (make_request env401 "POST" "/x" none none ⟨some "tok", 1000⟩
        ⟨0, 0, 0⟩).ctr.http = 1) :=
  ⟨by decide, by decide,
    c4_error_swallowed env401 ⟨some "tok", 1000⟩ "POST" "/x" none none 100
      (fun _ => rfl) (by decide) (by decide)
      (fun j h => HttpOutcome.noConfusion h)⟩

/-- A concrete environment for exercising caller-supplied query params. -/
def envOverride : Env :=
  { app_id := "app", secret_key := "sec", sha256hex := fun s => s,
    jsonDumps := fun _ => "B", clock := fun _ => 100,
    authCall := fun _ => .success (some "tok") (some 60),
    httpCall := fun _ => .ok .null }

/-- Counterexample for C3 as stated: a caller-supplied `appID` entry
overrides the signed field — the request is sent with the caller's value
`"evil"`, not the executor's app id `"app"`. -/
theorem c3_counterexample_caller_overrides :
    lookupQ ((make_request envOverride "POST" "/x" none
        (some [("appID", QVal.s "evil")]) ⟨some "tok", 1000⟩
        ⟨0, 0, 0⟩).query.getD []) "appID" = some (QVal.s "evil") ∧
    envOverride.app_id = "app" := by
  constructor <;> rfl

/-- C3 (amended): `make_request` initializes the query with the four signed
fields (`access_token`, `appID`, `timestamp`, `signature`, the signature
computed over the same timestamp and body) and merges caller params with
`dict.update` semantics — so caller values replace a signed field of the
same name, but whenever the caller's keys avoid the four signed names, all
four are sent exactly as computed by the executor. -/
theorem c3_signed_fields_when_disjoint (env : Env) (st : ClientState)
    (method endpoint : String) (json_data : Option JVal)
    (p : List (String × QVal)) (c : Nat)
    (hclock : ∀ i, env.clock i = c)
    (h₁ : tokenTruthy st.access_token = true)
    (h₂ : c < st.token_expiry)
    (hkeys : ∀ kv ∈ p, kv.1 ∉
      (["access_token", "appID", "timestamp", "signature"] : List String)) :
    lookupQ ((make_request env method endpoint json_data (some p) st
        ⟨0, 0, 0⟩).query.getD []) "access_token" =
      some (.optS st.access_token) ∧
    lookupQ ((make_request env method endpoint json_data (some p) st
        ⟨0, 0, 0⟩).query.getD []) "appID" = some (.s env.app_id) ∧
    lookupQ ((make_request env method endpoint json_data (some p) st
        ⟨0, 0, 0⟩).query.getD []) "timestamp" = some (.n c) ∧
    lookupQ ((make_request env method endpoint json_data (some p) st
        ⟨0, 0, 0⟩).query.getD []) "signature" =
      some (.s (calculate_signature env.sha256hex env.jsonDumps env.app_id
        env.secret_key st.access_token c json_data)) := by
  rw [make_request_fresh env st method endpoint json_data (some p) c
    ⟨0, 0, 0⟩ hclock h₁ h₂]
  have hbase : ∀ k, k ∈ (["access_token", "appID", "timestamp",
      "signature"] : List String) → (∀ kv ∈ p, kv.1 ≠ k) →
      lookupQ (if p.isEmpty then signedQuery env st.access_token c json_data
        else dictUpdate (signedQuery env st.access_token c json_data) p) k =
      lookupQ (signedQuery env st.access_token c json_data) k := by
    intro k _ hk
    by_cases hp : p.isEmpty
    · rw [if_pos hp]
    · rw [if_neg hp, lookupQ_dictUpdate_ne _ _ _ hk]
  refine ⟨?_, ?_, ?_, ?_⟩ <;>
    · rw [Option.getD_some, hbase _ (by simp)
        (fun kv hkv h => by simpa [h] using hkeys kv hkv)]
      simp [signedQuery, lookupQ]

/-- Witness for C3 (amended) with a disjoint caller param `networkId`. -/
theorem c3_signed_fields_when_disjoint_witness :
    tokenTruthy (some "tok") = true ∧ (100 : Nat) < 1000 ∧
    (lookupQ ((make_request envOverride "POST" "/x" none
        (some [("networkId", QVal.s "N1")]) ⟨some "tok", 1000⟩
        ⟨0, 0, 0⟩).query.getD []) "access_token" =
      some (.optS (some "tok")) ∧
    lookupQ ((make_request envOverride "POST" "/x" none
        (some [("networkId", QVal.s "N1")]) ⟨some "tok", 1000⟩
        ⟨0, 0, 0⟩).query.getD []) "appID" = some (.s envOverride.app_id) ∧
    lookupQ ((make_request envOverride "POST" "/x" none
        (some [("networkId", QVal.s "N1")]) ⟨some "tok", 1000⟩
        ⟨0, 0, 0⟩).query.getD []) "timestamp" = some (.n 100) ∧
    lookupQ ((make_request envOverride "POST" "/x" none
        (some [("networkId", QVal.s "N1")]) ⟨some "tok", 1000⟩
        ⟨0, 0, 0⟩).query.getD []) "signature" =
      some (.s (calculate_signature envOverride.sha256hex
        envOverride.jsonDumps envOverride.app_id envOverride.secret_key
        (some "tok") 100 none))) :=
  ⟨by decide, by decide,
    c3_signed_fields_when_disjoint envOverride ⟨some "tok", 1000⟩ "POST" "/x"
      none [("networkId", QVal.s "N1")] 100 (fun _ => rfl) (by decide)
      (by decide) (by decide)⟩

/-! ## Snapshot builder (`get_data` and its helpers) -/

/-- `v[k]` subscription on a parsed JSON value: `KeyError` for a missing
dict key, `TypeError` when the value cannot be subscripted by a string
(lists, numbers, booleans, strings, `None`). -/
def pySubscript (v : JVal) (k : String) : Except Exc JVal :=
  match v with
  | .obj fs =>
      match lookupF fs k with
      | some w => .ok w
      | none => .error .keyError
  | _ => .error .typeError

/-- `v[0]`: first element of a list (`IndexError` when empty), first
character of a string, `KeyError` on a dict (no integer key exists in the
modelled payloads), `TypeError` otherwise. -/
def pyIndexZero (v : JVal) : Except Exc JVal :=
  match v with
  | .arr [] => .error .indexError
  | .arr (x :: _) => .ok x
  | .s str =>
      match str.data with
      | [] => .error .indexError
      | ch :: _ => .ok (.s (String.mk [ch]))
  | .obj _ => .error .keyError
  | _ => .error .typeError

/-- `v.get(k, default)` — a dict method, so `AttributeError` on anything
that is not a dict (including `None`, which is what a failed
`make_request` returns). -/
def pyGetD (v : JVal) (k : String) (default : JVal) : Except Exc JVal :=
  match v with
  | .obj fs => .ok ((lookupF fs k).getD default)
  | _ => .error .attributeError

/-- `v.get(k)` (default `None`). -/
def pyGet (v : JVal) (k : String) : Except Exc JVal := pyGetD v k .null

/-- `for x in v`: list elements, string characters, dict keys;
`TypeError` for non-iterables. -/
def pyIter (v : JVal) : Except Exc (List JVal) :=
  match v with
  | .arr xs => .ok xs
  | .s str => .ok (str.data.map fun ch => .s (String.mk [ch]))
  | .obj fs => .ok (fs.map fun f => .s f.1)
  | _ => .error .typeError

/-- First-match lookup in a `JVal`-keyed Python dict. -/
def lookupJ : List (JVal × JVal) → JVal → Option JVal
  | [], _ => none
  | (k, v) :: rest, key => if jvBeq k key then some v else lookupJ rest key

/-- `d[k] = v` on a `JVal`-keyed Python dict: replace the value of an
existing (equal) key in place, else append. -/
def dictSetJ (d : List (JVal × JVal)) (k v : JVal) : List (JVal × JVal) :=
  match d with
  | [] => [(k, v)]
  | (k', w) :: rest =>
      if jvBeq k' k then (k', v) :: rest else (k', w) :: dictSetJ rest k v

/-- The `aps_map` loop (lines 198-201):
`for ap in aps_list: aps_map[ap.get("mac", "")] = ap`. -/
def buildApsMap : List JVal → List (JVal × JVal) →
    Except Exc (List (JVal × JVal))
  | [], m => .ok m
  | ap :: rest, m => do
      let mac ← pyGetD ap "mac" (.s "")
      buildApsMap rest (dictSetJ m mac ap)

/-- The client-normalization step (lines 206-224): one `normalized_client`
dict, with the field defaults of the source and
`ap_info = aps_map.get(ap_id, {})`. -/
def normalizeClient (aps_map : List (JVal × JVal)) (client : JVal) :
    Except Exc (List (String × JVal)) := do
  let ap_id ← pyGetD client "apId" (.s "")
  let ap_info := (lookupJ aps_map ap_id).getD (.obj [])
  let mac ← pyGetD client "clientId" (.s "")
  let name ← pyGetD client "name" (.s "Unknown")
  let ipv4 ← pyGetD client "ipv4" (.s "")
  let ipv6 ← pyGetD client "ipv6" (.s "")
  let apName ← pyGetD client "apName" (.s "Unknown")
  let ap_name ← pyGetD ap_info "name" apName
  let rssi ← pyGet client "rssi"
  let ssid ← pyGetD client "ssid" (.s "")
  let online ← pyGetD client "online" (.n 0)
  let tx_bytes ← pyGetD client "txBytes" (.n 0)
  let rx_bytes ← pyGetD client "rxBytes" (.n 0)
  let tx_rate ← pyGetD client "txRate" (.n 0)
  let rx_rate ← pyGetD client "rxRate" (.n 0)
  pure [("mac", mac), ("name", name), ("ipv4", ipv4), ("ipv6", ipv6),
    ("ap_mac", ap_id), ("ap_name", ap_name), ("rssi", rssi),
    ("ssid", ssid), ("online", online), ("tx_bytes", tx_bytes),
    ("rx_bytes", rx_bytes), ("tx_rate", tx_rate), ("rx_rate", rx_rate)]

/-- `GWNClient.get_networks` (lines 137-149). -/
def get_networks (env : Env) (st : ClientState) (ctr : Ctr) : MROut :=
  make_request env "POST" "/oapi/v1.0.0/network/list"
    (some (.obj [("type", .s "asc"), ("order", .s "id"), ("search", .s ""),
      ("pageNum", .n 1), ("pageSize", .n 5)])) none st ctr

/-- `GWNClient.get_access_points` (lines 151-162): `networkId` is added to
the body only when the id is truthy. -/
def get_access_points (env : Env) (network_id : JVal) (st : ClientState)
    (ctr : Ctr) : MROut :=
  let base : List (String × JVal) := [("pageNum", .n 1), ("pageSize", .n 100)]
  let body := if jvTruthy network_id
    then base ++ [("networkId", network_id)] else base
  make_request env "POST" "/oapi/v1.0.0/ap/list" (some (.obj body)) none st ctr

/-- `GWNClient.get_client_List` (lines 164-176). -/
def get_client_List (env : Env) (network_id : JVal) (st : ClientState)
    (ctr : Ctr) : MROut :=
  let base : List (String × JVal) :=
    [("pageNum", .n 1), ("pageSize", .n 100), ("untilNow", .n 1)]
  let body := if jvTruthy network_id
    then base ++ [("networkId", network_id)] else base
  make_request env "POST" "/oapi/v1.0.0/client/list" (some (.obj body)) none
    st ctr

/-- One snapshot as `get_data` returns it: the raw `aps_list` value and the
normalized client dicts. -/
structure Snapshot where
  aps : JVal
  clients : List (List (String × JVal))

/-- Result of `GWNClient.get_data`: `.ok none` models the implicit
`return None` when control falls off the end of the function. -/
structure GDOut where
  result : Except Exc (Option Snapshot)
  st : ClientState
  ctr : Ctr

/-- `GWNClient.get_data` (lines 178-232): unconditional `authenticate()`
(result ignored), network list, `networks['data']['result'][0].get('id')`,
AP and client fetches in sequence, the `aps_map` join, and client
normalization; any Python exception propagates, and a falsy `networks`
value falls through to `return None`. -/
def get_data (env : Env) (st : ClientState) (ctr : Ctr) : GDOut :=
  let a := authenticate env st ctr
  let r := get_networks env a.st a.ctr
  match r.result with
  | .error e => ⟨.error e, r.st, r.ctr⟩
  | .ok networks =>
    if jvTruthy networks then
      match (do
          let d ← pySubscript networks "data"
          let res ← pySubscript d "result"
          let first ← pyIndexZero res
          pyGet first "id" : Except Exc JVal) with
      | .error e => ⟨.error e, r.st, r.ctr⟩
      | .ok network_id =>
        let raps := get_access_points env network_id r.st r.ctr
        match raps.result with
        | .error e => ⟨.error e, raps.st, raps.ctr⟩
        | .ok aps =>
          let rcl := get_client_List env network_id raps.st raps.ctr
          match rcl.result with
          | .error e => ⟨.error e, rcl.st, rcl.ctr⟩
          | .ok clients_data =>
            match (do
                let aps_outer ← pyGetD aps "data" (.obj [])
                let aps_list ← pyGetD aps_outer "result" (.arr [])
                let aps_elems ← pyIter aps_list
                let aps_map ← buildApsMap aps_elems []
                let cl_outer ← pyGetD clients_data "data" (.obj [])
                let clients_list ← pyGetD cl_outer "result" (.arr [])
                let cl_elems ← pyIter clients_list
                let normalized ← cl_elems.mapM (normalizeClient aps_map)
                pure (aps_list, normalized) :
              Except Exc (JVal × List (List (String × JVal)))) with
            | .error e => ⟨.error e, rcl.st, rcl.ctr⟩
            | .ok (aps_list, normalized) =>
                ⟨.ok (some ⟨aps_list, normalized⟩), rcl.st, rcl.ctr⟩
    else
      ⟨.ok none, r.st, r.ctr⟩

/-- A concrete environment whose network-list endpoint answers with an
empty result list. -/
def envEmptyNet : Env :=
  { app_id := "app", secret_key := "sec", sha256hex := fun s => s,
    jsonDumps := fun _ => "B", clock := fun _ => 100,
    authCall := fun _ => .success (some "tok") (some 3600),
    httpCall := fun _ => .ok (.obj [("data", .obj [("result", .arr [])])]) }

/-- C5: on an envelope whose result list is empty, `get_data` crashes with
an untyped `IndexError` from `networks['data']['result'][0]` — there is no
`SnapshotError` anywhere in the code. -/
theorem c5_empty_network_list_is_index_error :
    (get_data envEmptyNet ⟨none, 0⟩ ⟨0, 0, 0⟩).result =
      .error .indexError := by
  rfl

/-- The value `make_request` hands back for an HTTP outcome: the parsed
body on 2xx, `None` otherwise. -/
def respValue : HttpOutcome → JVal
  | .ok j => j
  | .httpError _ _ => .null
  | .transportError _ => .null

/-- C10: whenever the network-list call yields a falsy value — in
particular `None`, which `make_request` returns after any HTTP or
transport error — `get_data` raises nothing and falls through to
`return None`, so callers must handle a `None` result. -/
theorem c10_get_data_falls_through_to_none (env : Env) (st : ClientState)
    (c : Nat) (tok : String) (e : Option Nat)
    (hclock : ∀ i, env.clock i = c)
    (hauth : env.authCall 0 = .success (some tok) e)
    (htok : tok ≠ "")
    (hexp : 0 < e.getD 3600)
    (hfalsy : jvTruthy (respValue (env.httpCall 0)) = false) :
    (get_data env st ⟨0, 0, 0⟩).result = .ok none := by
  have htok' : tokenTruthy (some tok) = true := by simp [tokenTruthy, htok]
  have hfr : c < c + 1000 * e.getD 3600 := by omega
  simp only [get_data, get_networks, authenticate, hauth, hclock]
  rw [make_request_fresh env ⟨some tok, c + 1000 * e.getD 3600⟩ "POST"
    "/oapi/v1.0.0/network/list" _ none c ⟨1, 1, 0⟩ hclock htok' hfr]
  cases h₀ : env.httpCall 0 with
  | ok j =>
      rw [h₀] at hfalsy
      simp only [respValue] at hfalsy
      simp [hfalsy]
  | httpError s b => simp [jvTruthy]
  | transportError m => simp [jvTruthy]

/-- A concrete environment whose network-list call fails with HTTP 500. -/
def envNetDown : Env :=
  { app_id := "app", secret_key := "sec", sha256hex := fun s => s,
    jsonDumps := fun _ => "B", clock := fun _ => 100,
    authCall := fun _ => .success (some "tok") (some 3600),
    httpCall := fun _ => .httpError 500 "Internal Server Error" }

/-- Witness for C10: failed network-list call, `get_data` returns `None`. -/
theorem c10_get_data_falls_through_to_none_witness :
    "tok" ≠ "" ∧ jvTruthy (respValue (envNetDown.httpCall 0)) = false ∧
    (get_data envNetDown ⟨none, 0⟩ ⟨0, 0, 0⟩).result = .ok none :=
  ⟨by decide, by decide,
    c10_get_data_falls_through_to_none envNetDown ⟨none, 0⟩ 100 "tok"
      (some 3600) (fun _ => rfl) rfl (by decide) (by decide) (by decide)⟩

/-- A well-formed network-list envelope with a single network id. -/
def netEnvelope (nid : JVal) : JVal :=
  .obj [("data", .obj [("result", .arr [.obj [("id", nid)]])])]

/-- An envelope `{data: {result: []}}` with an empty result list. -/
def emptyListEnvelope : JVal := .obj [("data", .obj [("result", .arr [])])]

/-- A concrete client configuration whose three successive signed calls
answer `o₀`, `o₁`, and then `o₂`. -/
def envWith (o₀ o₁ o₂ : HttpOutcome) : Env :=
  { app_id := "app", secret_key := "sec", sha256hex := fun s => s,
    jsonDumps := fun _ => "B", clock := fun _ => 100,
    authCall := fun _ => .success (some "tok") (some 3600),
    httpCall := fun n =>
      match n with
      | 0 => o₀
      | 1 => o₁
      | _ => o₂ }

set_option maxHeartbeats 1600000 in
/-- C6 (amended): after a network id is obtained, a failed AP fetch or a
failed client fetch (non-2xx with any status and body, or any transport
error) makes `make_request` swallow the error and return `None`; the other
fetch is still attempted (three HTTP calls in total), no snapshot —
partial or otherwise — is produced, and the cycle crashes with an untyped
Python `AttributeError` at the subsequent `.get("data", {})`, not with any
typed `ApiError`. -/
theorem c6_failed_fetch_crashes_untyped (s : Nat) (b msg : String) :
    ((get_data (envWith (.ok (netEnvelope (.s "N1"))) (.httpError s b)
        (.ok emptyListEnvelope)) ⟨none, 0⟩ ⟨0, 0, 0⟩).result =
          .error .attributeError ∧
      (get_data (envWith (.ok (netEnvelope (.s "N1"))) (.httpError s b)
        (.ok emptyListEnvelope)) ⟨none, 0⟩ ⟨0, 0, 0⟩).ctr.http = 3) ∧
    ((get_data (envWith (.ok (netEnvelope (.s "N1"))) (.transportError msg)
        (.ok emptyListEnvelope)) ⟨none, 0⟩ ⟨0, 0, 0⟩).result =
          .error .attributeError ∧
      (get_data (envWith (.ok (netEnvelope (.s "N1"))) (.transportError msg)
        (.ok emptyListEnvelope)) ⟨none, 0⟩ ⟨0, 0, 0⟩).ctr.http = 3) ∧
    ((get_data (envWith (.ok (netEnvelope (.s "N1")))
        (.ok emptyListEnvelope) (.httpError s b)) ⟨none, 0⟩
        ⟨0, 0, 0⟩).result = .error .attributeError ∧
      (get_data (envWith (.ok (netEnvelope (.s "N1")))
        (.ok emptyListEnvelope) (.httpError s b)) ⟨none, 0⟩
        ⟨0, 0, 0⟩).ctr.http = 3) ∧
    ((get_data (envWith (.ok (netEnvelope (.s "N1")))
        (.ok emptyListEnvelope) (.transportError msg)) ⟨none, 0⟩
        ⟨0, 0, 0⟩).result = .error .attributeError ∧
      (get_data (envWith (.ok (netEnvelope (.s "N1")))
        (.ok emptyListEnvelope) (.transportError msg)) ⟨none, 0⟩
        ⟨0, 0, 0⟩).ctr.http = 3) :=
  ⟨⟨rfl, rfl⟩, ⟨rfl, rfl⟩, ⟨rfl, rfl⟩, ⟨rfl, rfl⟩⟩

/-- A concrete environment: good network list, HTTP 500 on the AP list,
empty client list. -/
def envApDown : Env :=
  { app_id := "app", secret_key := "sec", sha256hex := fun s => s,
    jsonDumps := fun _ => "B", clock := fun _ => 100,
    authCall := fun _ => .success (some "tok") (some 3600),
    httpCall := fun n =>
      match n with
      | 0 => .ok (netEnvelope (.s "N1"))
      | 1 => .httpError 500 "Internal Server Error"
      | _ => .ok (.obj [("data", .obj [("result", .arr [])])]) }

/-- Counterexample for C6 as stated: after the AP fetch fails, the cycle
does not abort with any `ApiError` — the client fetch is still issued
(three HTTP calls) and the failure surfaced is an untyped Python
`AttributeError`. -/
theorem c6_counterexample_attribute_error :
    (get_data envApDown ⟨none, 0⟩ ⟨0, 0, 0⟩).result =
      .error .attributeError ∧
    (get_data envApDown ⟨none, 0⟩ ⟨0, 0, 0⟩).ctr.http = 3 := by
  constructor <;> rfl

/-! ## AP join and client-shape claims -/

/-- `jvBeq` agrees with equality (positive direction). -/
theorem jvBeq_of_eq {a b : JVal} (h : a = b) : jvBeq a b = true :=
  (jvBeq_iff a b).mpr h

/-- `jvBeq` agrees with equality (negative direction). -/
theorem jvBeq_of_ne {a b : JVal} (h : a ≠ b) : jvBeq a b = false := by
  cases hb : jvBeq a b
  · rfl
  · exact absurd ((jvBeq_iff a b).mp hb) h

/-- Reading a dict right after `d[k] = v`. -/
theorem lookupJ_dictSetJ (m : List (JVal × JVal)) (k v key : JVal) :
    lookupJ (dictSetJ m k v) key =
      if jvBeq k key then some v else lookupJ m key := by
  induction m with
  | nil =>
      by_cases hk : k = key
      · simp [dictSetJ, lookupJ, jvBeq_of_eq hk]
      · simp [dictSetJ, lookupJ, jvBeq_of_ne hk]
  | cons q rest ih =>
      obtain ⟨k₁, w⟩ := q
      by_cases h₁ : k₁ = k
      · have e₁ := jvBeq_of_eq h₁
        by_cases h₂ : k = key
        · have e₂ : jvBeq k₁ key = true := jvBeq_of_eq (h₁.trans h₂)
          have e₃ := jvBeq_of_eq h₂
          simp [dictSetJ, lookupJ, e₁, e₂, e₃]
        · have e₂ : jvBeq k₁ key = false := jvBeq_of_ne (by rw [h₁]; exact h₂)
          have e₃ := jvBeq_of_ne h₂
          simp [dictSetJ, lookupJ, e₁, e₂, e₃]
      · have e₁ := jvBeq_of_ne h₁
        by_cases h₂ : k₁ = key
        · have e₂ := jvBeq_of_eq h₂
          have e₃ : jvBeq k key = false :=
            jvBeq_of_ne (fun hh => h₁ (h₂.trans hh.symm))
          simp [dictSetJ, lookupJ, e₁, e₂, e₃]
        · have e₂ := jvBeq_of_ne h₂
          simp [dictSetJ, lookupJ, e₁, e₂, ih]

/-- Does `ap.get("mac", "")` equal the key `k`? -/
def apMacIs (k ap : JVal) : Bool :=
  match ap with
  | .obj fs => jvBeq ((lookupF fs "mac").getD (.s "")) k
  | _ => false

/-- The last element of `aps` whose mac field is `k`, with accumulator. -/
def lastMatchFrom (k : JVal) (acc : Option JVal) : List JVal → Option JVal
  | [] => acc
  | ap :: rest => lastMatchFrom k (if apMacIs k ap then some ap else acc) rest

/-- The last access point in the list whose `mac` field (default `""`)
equals `k` — which is exactly the record `aps_map` stores under `k`. -/
def lastApWithMac (aps : List JVal) (k : JVal) : Option JVal :=
  lastMatchFrom k none aps

/-- The `aps_map` built by the source loop resolves a key to the last AP in
the list whose `mac` equals it (later duplicates overwrite earlier ones). -/
theorem buildApsMap_lookup (aps : List JVal) :
    ∀ m m', buildApsMap aps m = .ok m' → ∀ key,
      lookupJ m' key = lastMatchFrom key (lookupJ m key) aps := by
  induction aps with
  | nil =>
      intro m m' h key
      simp only [buildApsMap] at h
      cases h
      simp [lastMatchFrom]
  | cons ap rest ih =>
      intro m m' h key
      cases ap with
      | obj fs =>
          simp only [buildApsMap, pyGetD, Bind.bind, Except.bind] at h
          rw [ih _ _ h key, lookupJ_dictSetJ]
          simp [lastMatchFrom, apMacIs]
      | null => simp [buildApsMap, pyGetD, Bind.bind, Except.bind] at h
      | b x => simp [buildApsMap, pyGetD, Bind.bind, Except.bind] at h
      | n x => simp [buildApsMap, pyGetD, Bind.bind, Except.bind] at h
      | s x => simp [buildApsMap, pyGetD, Bind.bind, Except.bind] at h
      | arr xs => simp [buildApsMap, pyGetD, Bind.bind, Except.bind] at h

/-- C7: for a client record in a snapshot, `ap_name` is the `name` of the
access point of the same snapshot whose `mac` equals the client's `apId`
when such an AP exists (under duplicate macs, the last one — exactly what
the `aps_map` dict stores); when the lookup misses, `ap_name` falls back to
the client's own `apName` field if present, else `"Unknown"`; in both cases
normalization completes without raising. -/
theorem c7_ap_name_resolution (aps : List JVal) (m : List (JVal × JVal))
    (cf : List (String × JVal))
    (hm : buildApsMap aps [] = .ok m) :
    (∀ apFs n,
      lastApWithMac aps ((lookupF cf "apId").getD (.s "")) =
          some (.obj apFs) →
      lookupF apFs "name" = some n →
      ∃ r, normalizeClient m (.obj cf) = .ok r ∧
        lookupF r "ap_name" = some n) ∧
    (lastApWithMac aps ((lookupF cf "apId").getD (.s "")) = none →
      ∃ r, normalizeClient m (.obj cf) = .ok r ∧
        lookupF r "ap_name" =
          some ((lookupF cf "apName").getD (.s "Unknown"))) := by
  have hl := buildApsMap_lookup aps [] m hm
  simp only [lookupJ] at hl
  constructor
  · intro apFs n h₁ h₂
    have h₁' : lastMatchFrom ((lookupF cf "apId").getD (.s "")) none aps =
        some (.obj apFs) := h₁
    refine ⟨[("mac", (lookupF cf "clientId").getD (.s "")),
        ("name", (lookupF cf "name").getD (.s "Unknown")),
        ("ipv4", (lookupF cf "ipv4").getD (.s "")),
        ("ipv6", (lookupF cf "ipv6").getD (.s "")),
        ("ap_mac", (lookupF cf "apId").getD (.s "")),
        ("ap_name", n),
        ("rssi", (lookupF cf "rssi").getD .null),
        ("ssid", (lookupF cf "ssid").getD (.s "")),
        ("online", (lookupF cf "online").getD (.n 0)),
        ("tx_bytes", (lookupF cf "txBytes").getD (.n 0)),
        ("rx_bytes", (lookupF cf "rxBytes").getD (.n 0)),
        ("tx_rate", (lookupF cf "txRate").getD (.n 0)),
        ("rx_rate", (lookupF cf "rxRate").getD (.n 0))], ?_, ?_⟩
    · simp only [normalizeClient, Bind.bind, Except.bind, pyGetD, pyGet,
        hl, h₁', Option.getD_some, h₂]
      rfl
    · simp [lookupF]
  · intro h₀
    have h₀' : lastMatchFrom ((lookupF cf "apId").getD (.s "")) none aps =
        none := h₀
    refine ⟨[("mac", (lookupF cf "clientId").getD (.s "")),
        ("name", (lookupF cf "name").getD (.s "Unknown")),
        ("ipv4", (lookupF cf "ipv4").getD (.s "")),
        ("ipv6", (lookupF cf "ipv6").getD (.s "")),
        ("ap_mac", (lookupF cf "apId").getD (.s "")),
        ("ap_name", (lookupF cf "apName").getD (.s "Unknown")),
        ("rssi", (lookupF cf "rssi").getD .null),
        ("ssid", (lookupF cf "ssid").getD (.s "")),
        ("online", (lookupF cf "online").getD (.n 0)),
        ("tx_bytes", (lookupF cf "txBytes").getD (.n 0)),
        ("rx_bytes", (lookupF cf "rxBytes").getD (.n 0)),
        ("tx_rate", (lookupF cf "txRate").getD (.n 0)),
        ("rx_rate", (lookupF cf "rxRate").getD (.n 0))], ?_, ?_⟩
    · simp only [normalizeClient, Bind.bind, Except.bind, pyGetD, pyGet,
        hl, h₀', Option.getD_none, lookupF]
      rfl
    · simp [lookupF]

/-- Witness for C7 at the spec's own example: AP list
`[{mac: "A1", name: "Lobby"}]`, client
`{clientId: "C1", apId: "A1", name: "Phone"}` resolves to `"Lobby"`. -/
theorem c7_ap_name_resolution_witness :
    ∃ r, normalizeClient [(.s "A1", .obj [("mac", .s "A1"),
        ("name", .s "Lobby")])]
      (.obj [("clientId", .s "C1"), ("apId", .s "A1"),
        ("name", .s "Phone")]) = .ok r ∧
      lookupF r "ap_name" = some (.s "Lobby") :=
  (c7_ap_name_resolution [.obj [("mac", .s "A1"), ("name", .s "Lobby")]]
    [(.s "A1", .obj [("mac", .s "A1"), ("name", .s "Lobby")])]
    [("clientId", .s "C1"), ("apId", .s "A1"), ("name", .s "Phone")]
    rfl).1 [("mac", .s "A1"), ("name", .s "Lobby")] (.s "Lobby") rfl rfl

/-- Counterexample for C8 as stated: the normalized record of an empty
client dict has no `channel`/`vlan`/last-active field at all, and its
`rssi` defaults to `None` (JSON `null`), not to 0. -/
theorem c8_counterexample_missing_fields :
    normalizeClient [] (.obj []) =
      .ok [("mac", .s ""), ("name", .s "Unknown"), ("ipv4", .s ""),
        ("ipv6", .s ""), ("ap_mac", .s ""), ("ap_name", .s "Unknown"),
        ("rssi", .null), ("ssid", .s ""), ("online", .n 0),
        ("tx_bytes", .n 0), ("rx_bytes", .n 0), ("tx_rate", .n 0),
        ("rx_rate", .n 0)] ∧
    lookupF [("mac", JVal.s ""), ("name", .s "Unknown"), ("ipv4", .s ""),
        ("ipv6", .s ""), ("ap_mac", .s ""), ("ap_name", .s "Unknown"),
        ("rssi", .null), ("ssid", .s ""), ("online", .n 0),
        ("tx_bytes", .n 0), ("rx_bytes", .n 0), ("tx_rate", .n 0),
        ("rx_rate", .n 0)] "vlan" = none ∧
    lookupF [("mac", JVal.s ""), ("name", .s "Unknown"), ("ipv4", .s ""),
        ("ipv6", .s ""), ("ap_mac", .s ""), ("ap_name", .s "Unknown"),
        ("rssi", .null), ("ssid", .s ""), ("online", .n 0),
        ("tx_bytes", .n 0), ("rx_bytes", .n 0), ("tx_rate", .n 0),
        ("rx_rate", .n 0)] "channel" = none ∧
    lookupF [("mac", JVal.s ""), ("name", .s "Unknown"), ("ipv4", .s ""),
        ("ipv6", .s ""), ("ap_mac", .s ""), ("ap_name", .s "Unknown"),
        ("rssi", .null), ("ssid", .s ""), ("online", .n 0),
        ("tx_bytes", .n 0), ("rx_bytes", .n 0), ("tx_rate", .n 0),
        ("rx_rate", .n 0)] "rssi" = some .null :=
  ⟨rfl, rfl, rfl, rfl⟩

/-- C8 (amended): every normalized client record has exactly the thirteen
keys `mac, name, ipv4, ipv6, ap_mac, ap_name, rssi, ssid, online,
tx_bytes, rx_bytes, tx_rate, rx_rate` — no channel class, vlan id or
last-active field — with `mac` from the vendor `clientId` (default `""`),
`name` defaulting to `"Unknown"`, `ipv4`/`ipv6`/`ssid` to `""`, `online`
and the tx/rx counters and rates to 0, and `rssi` defaulting to `None`
rather than 0. -/
theorem c8_normalized_client_shape (m : List (JVal × JVal))
    (cf : List (String × JVal))
    (hinfo : ∃ fs,
      (lookupJ m ((lookupF cf "apId").getD (.s ""))).getD (.obj []) =
        .obj fs) :
    ∃ r, normalizeClient m (.obj cf) = .ok r ∧
      r.map Prod.fst = ["mac", "name", "ipv4", "ipv6", "ap_mac", "ap_name",
        "rssi", "ssid", "online", "tx_bytes", "rx_bytes", "tx_rate",
        "rx_rate"] ∧
      lookupF r "mac" = some ((lookupF cf "clientId").getD (.s "")) ∧
      lookupF r "name" = some ((lookupF cf "name").getD (.s "Unknown")) ∧
      lookupF r "ipv4" = some ((lookupF cf "ipv4").getD (.s "")) ∧
      lookupF r "ipv6" = some ((lookupF cf "ipv6").getD (.s "")) ∧
      lookupF r "ap_mac" = some ((lookupF cf "apId").getD (.s "")) ∧
      lookupF r "rssi" = some ((lookupF cf "rssi").getD .null) ∧
      lookupF r "ssid" = some ((lookupF cf "ssid").getD (.s "")) ∧
      lookupF r "online" = some ((lookupF cf "online").getD (.n 0)) ∧
      lookupF r "tx_bytes" = some ((lookupF cf "txBytes").getD (.n 0)) ∧
      lookupF r "rx_bytes" = some ((lookupF cf "rxBytes").getD (.n 0)) ∧
      lookupF r "tx_rate" = some ((lookupF cf "txRate").getD (.n 0)) ∧
      lookupF r "rx_rate" = some ((lookupF cf "rxRate").getD (.n 0)) := by
  obtain ⟨fs, hfs⟩ := hinfo
  refine ⟨[("mac", (lookupF cf "clientId").getD (.s "")),
      ("name", (lookupF cf "name").getD (.s "Unknown")),
      ("ipv4", (lookupF cf "ipv4").getD (.s "")),
      ("ipv6", (lookupF cf "ipv6").getD (.s "")),
      ("ap_mac", (lookupF cf "apId").getD (.s "")),
      ("ap_name", (lookupF fs "name").getD
        ((lookupF cf "apName").getD (.s "Unknown"))),
      ("rssi", (lookupF cf "rssi").getD .null),
      ("ssid", (lookupF cf "ssid").getD (.s "")),
      ("online", (lookupF cf "online").getD (.n 0)),
      ("tx_bytes", (lookupF cf "txBytes").getD (.n 0)),
      ("rx_bytes", (lookupF cf "rxBytes").getD (.n 0)),
      ("tx_rate", (lookupF cf "txRate").getD (.n 0)),
      ("rx_rate", (lookupF cf "rxRate").getD (.n 0))],
    ?_, ?_, ?_, ?_, ?_, ?_, ?_, ?_, ?_, ?_, ?_, ?_, ?_, ?_⟩
  · simp only [normalizeClient, Bind.bind, Except.bind, pyGetD, pyGet, hfs]
    rfl
  all_goals simp [lookupF]

/-- Witness for C8 at the empty map and empty client record. -/
theorem c8_normalized_client_shape_witness :
    ∃ r, normalizeClient [] (.obj []) = .ok r ∧
      r.map Prod.fst = ["mac", "name", "ipv4", "ipv6", "ap_mac", "ap_name",
        "rssi", "ssid", "online", "tx_bytes", "rx_bytes", "tx_rate",
        "rx_rate"] ∧
      lookupF r "mac" = some ((lookupF [] "clientId").getD (.s "")) ∧
      lookupF r "name" = some ((lookupF [] "name").getD (.s "Unknown")) ∧
      lookupF r "ipv4" = some ((lookupF [] "ipv4").getD (.s "")) ∧
      lookupF r "ipv6" = some ((lookupF [] "ipv6").getD (.s "")) ∧
      lookupF r "ap_mac" = some ((lookupF [] "apId").getD (.s "")) ∧
      lookupF r "rssi" = some ((lookupF [] "rssi").getD .null) ∧
      lookupF r "ssid" = some ((lookupF [] "ssid").getD (.s "")) ∧
      lookupF r "online" = some ((lookupF [] "online").getD (.n 0)) ∧
      lookupF r "tx_bytes" = some ((lookupF [] "txBytes").getD (.n 0)) ∧
      lookupF r "rx_bytes" = some ((lookupF [] "rxBytes").getD (.n 0)) ∧
      lookupF r "tx_rate" = some ((lookupF [] "txRate").getD (.n 0)) ∧
      lookupF r "rx_rate" = some ((lookupF [] "rxRate").getD (.n 0)) :=
  c8_normalized_client_shape [] [] ⟨[], rfl⟩

end GWN
